import Mathlib

/-!
Shallow embedding of the idempotent submission pipeline of the
satusehat_service repository: the job ledger (`mera_integration_jobs`),
the submitter (`sendViaJob`), the retry engine (`retryOneJob`,
`handleRetryJobs`) from `job.go`, and the OAuth2 token manager
(`TokenManager.GetToken`) from `client.go`.

Modelling conventions:
- The database is a list of job rows plus the AUTO_INCREMENT counter
  (`nextId` is the last id handed out; MySQL assigns ids starting at 1,
  so a fresh insert gets `nextId + 1` and `LastInsertId` is never 0 for
  a real insert) and a `clock` standing for CURRENT_TIMESTAMP.
- `json.Marshal` of the caller's payload map is represented by its
  outcome, an `Option String` (`none` = marshal error); `json.Unmarshal`
  of a stored payload is an environment function `String → Option String`
  (`none` = parse error).  A parsed payload map is represented by a
  `String`.
- A `sendFn` / per-resource sender is represented by the outcome of its
  single invocation, `Except String String` (`.ok fhirID` or an error
  message); every function that may invoke a sender additionally returns
  the number of sender invocations it performed.
- `db.Exec` failure on INSERT is an explicit `execErr` flag
  (`createJob` logs and returns 0 in that case).
-/

namespace SatuSehat

/-- One row of the `mera_integration_jobs` table (schema in `job.go`). -/
structure Job where
  id : Nat
  resourceType : String
  idempotencyKey : String
  payload : String
  status : String
  fhirId : String
  errorMessage : String
  retryCount : Nat
  createdAt : Nat
deriving Repr, DecidableEq

/-- The persistent store: job rows, the last AUTO_INCREMENT id handed
out, and the current timestamp used for CURRENT_TIMESTAMP defaults. -/
structure DB where
  jobs : List Job
  nextId : Nat
  clock : Nat
deriving Repr, DecidableEq

/-- Does a row with this `(resource_type, idempotency_key)` unique key
exist?  This is what the `UNIQUE KEY uk_idemp` constraint consults on
`INSERT IGNORE`. -/
def hasKey (db : DB) (rt key : String) : Bool :=
  db.jobs.any (fun j => j.resourceType == rt && j.idempotencyKey == key)

/-- `createJob` from `job.go`: INSERT IGNORE of a pending row.  Returns
the new db and the job id; returns id 0 when the payload fails to
marshal (`payloadJSON = none`), when `db.Exec` errors (`execErr`), or
when the unique key already exists (INSERT IGNORE inserts nothing and
`LastInsertId` is 0). -/
def createJob (db : DB) (rt key : String) (payloadJSON : Option String)
    (execErr : Bool) : DB × Nat :=
  match payloadJSON with
  | none => (db, 0)
  | some pj =>
    if execErr then (db, 0)
    else if hasKey db rt key then (db, 0)
    else
      (⟨db.jobs ++ [⟨db.nextId + 1, rt, key, pj, "pending", "", "", 0, db.clock⟩],
        db.nextId + 1, db.clock⟩, db.nextId + 1)

/-- `completeJob` from `job.go`: UPDATE ... SET status='success',
fhir_id=?, error_message='' WHERE id=?. -/
def completeJob (db : DB) (jobID : Nat) (fhirID : String) : DB :=
  ⟨db.jobs.map (fun j =>
      if j.id = jobID then
        { j with status := "success", fhirId := fhirID, errorMessage := "" }
      else j),
    db.nextId, db.clock⟩

/-- `failJob` from `job.go`: UPDATE ... SET status='failed',
error_message=?, retry_count=retry_count+1 WHERE id=?. -/
def failJob (db : DB) (jobID : Nat) (errMsg : String) : DB :=
  ⟨db.jobs.map (fun j =>
      if j.id = jobID then
        { j with status := "failed", errorMessage := errMsg,
                 retryCount := j.retryCount + 1 }
      else j),
    db.nextId, db.clock⟩

/-- `sendViaJob` from `job.go` (the Submitter).  Returns the new db, the
Go return pair `(fhirID, error)` modelled as `String × Option String`
(`none` = nil error), and the number of `sendFn` invocations. -/
def sendViaJob (db : DB) (rt key : String) (payloadJSON : Option String)
    (execErr : Bool) (sendFn : Except String String) :
    DB × (String × Option String) × Nat :=
  let db1 := (createJob db rt key payloadJSON execErr).1
  let jobID := (createJob db rt key payloadJSON execErr).2
  if jobID = 0 then (db1, ("", none), 0)
  else
    match sendFn with
    | .error e => (failJob db1 jobID e, ("", some e), 1)
    | .ok fhirID => (completeJob db1 jobID fhirID, (fhirID, none), 1)

/-- The environment of `retryOneJob`: `json.Unmarshal` on the stored
payload, and the per-resource senders of `SSClient` (each represented by
the outcome of one invocation on the parsed payload). -/
structure SSEnv where
  unmarshal : String → Option String
  sendEncounter : String → Except String String
  sendCondition : String → Except String String
  sendProcedure : String → Except String String
  sendMedicationRequest : String → Except String String
  sendMedicationDispense : String → Except String String
  sendObservation : String → Except String String

/-- The resource-type switch of `retryOneJob` in `job.go` (default case:
observation types). -/
def dispatchSend (env : SSEnv) (resourceType : String) (p : String) :
    Except String String :=
  if resourceType = "Encounter" ∨ resourceType = "EncounterRanap" then
    env.sendEncounter p
  else if resourceType = "Condition" then env.sendCondition p
  else if resourceType = "Procedure" then env.sendProcedure p
  else if resourceType = "MedicationRequest" then env.sendMedicationRequest p
  else if resourceType = "MedicationDispense" then env.sendMedicationDispense p
  else env.sendObservation p

/-- The outcome map returned by `retryOneJob`: the constructor is the
`"status"` value, the arguments are the other keys of the Go map. -/
inductive RetryOutcome where
  | error (id : Nat) (msg : String)
  | skipped (id : Nat) (reason : String)
  | failed (id : Nat) (msg : String) (retryCount : Nat)
  | success (id : Nat) (fhirId : String)
deriving Repr, DecidableEq

/-- `QueryRow ... WHERE id=?` of `retryOneJob`. -/
def findJob (db : DB) (jobID : Nat) : Option Job :=
  db.jobs.find? (fun j => j.id == jobID)

/-- `retryOneJob` from `job.go`.  Returns the new db, the outcome map,
and the number of sender invocations. -/
def retryOneJob (env : SSEnv) (db : DB) (jobID : Nat) :
    DB × RetryOutcome × Nat :=
  match findJob db jobID with
  | none => (db, .error jobID "job not found", 0)
  | some j =>
    if j.status = "success" then (db, .skipped jobID "already success", 0)
    else if 3 ≤ j.retryCount then
      (db, .skipped jobID "max retries (3) reached", 0)
    else
      match env.unmarshal j.payload with
      | none => (db, .error jobID "invalid payload", 0)
      | some p =>
        match dispatchSend env j.resourceType p with
        | .error e =>
          (failJob db jobID e, .failed jobID e (j.retryCount + 1), 1)
        | .ok fid => (completeJob db jobID fid, .success jobID fid, 1)

/-- The candidate rows of the retry-all branch of `handleRetryJobs`:
`SELECT id FROM mera_integration_jobs WHERE status='failed' AND
retry_count < 3 ORDER BY created_at LIMIT 100` (rows before the `id`
projection; ties in `created_at` keep table order). -/
def retryCandidateRows (db : DB) : List Job :=
  ((db.jobs.filter (fun j => j.status == "failed" && decide (j.retryCount < 3))).mergeSort
      (fun a b => decide (a.createdAt ≤ b.createdAt))).take 100

/-- The ids selected by the retry-all query of `handleRetryJobs`. -/
def retryCandidates (db : DB) : List Nat :=
  (retryCandidateRows db).map (fun j => j.id)

/-- The `req.Status == "failed"` branch of `handleRetryJobs` in
`job.go`: read the candidate ids, then apply `retryOneJob` to each in
order, collecting the per-job outcome maps into `results`. -/
def handleRetryFailed (env : SSEnv) (db : DB) : DB × List RetryOutcome :=
  (retryCandidates db).foldl
    (fun acc id =>
      ((retryOneJob env acc.1 id).1, acc.2 ++ [(retryOneJob env acc.1 id).2.1]))
    (db, [])

/-! ### Token manager (`client.go`) -/

/-- The JSON body of a successful token exchange, as decoded by
`json.Unmarshal` into the anonymous struct of `GetToken`. -/
structure TokenBody where
  accessToken : String
  expiresIn : String
deriving Repr, DecidableEq

/-- An HTTP response of the token endpoint: status code, raw body, and
the result of `json.Unmarshal` on the body (`none` = malformed body). -/
structure ExchangeResponse where
  statusCode : Nat
  body : String
  parsed : Option TokenBody
deriving Repr, DecidableEq

/-- The mutable fields of `TokenManager`: the cached token and its
expiry instant (seconds). -/
structure TMState where
  token : String
  expiresAt : Int
deriving Repr, DecidableEq

/-- Value of the decimal digits of a character list. -/
def digitsVal (l : List Char) : Nat :=
  l.foldl (fun a c => a * 10 + (c.toNat - 48)) 0

/-- Go's `strconv.Atoi` as used in `GetToken`: the error return is
discarded, so a failed parse contributes 0. -/
def goAtoi (s : String) : Int :=
  match s.toList with
  | [] => 0
  | '-' :: rest =>
    if rest.all Char.isDigit && !rest.isEmpty then -(Int.ofNat (digitsVal rest))
    else 0
  | '+' :: rest =>
    if rest.all Char.isDigit && !rest.isEmpty then Int.ofNat (digitsVal rest)
    else 0
  | cs => if cs.all Char.isDigit then Int.ofNat (digitsVal cs) else 0

/-- `TokenManager.GetToken` from `client.go`, sequentialised: `now1` is
the `time.Now()` of the read-locked fast path, `now2` that of the
double check under the write lock, `now3` that of the expiry
computation; `exch` is the outcome of `http.PostForm` (`.error` = HTTP
error).  Returns the new cache state, the Go return pair (token or
error), and the number of exchange calls performed. -/
def getToken (st : TMState) (now1 now2 now3 : Int)
    (exch : Except String ExchangeResponse) :
    TMState × Except String String × Nat :=
  if st.token ≠ "" ∧ now1 < st.expiresAt then (st, .ok st.token, 0)
  else if st.token ≠ "" ∧ now2 < st.expiresAt then (st, .ok st.token, 0)
  else
    match exch with
    | .error e => (st, .error ("token request failed: " ++ e), 1)
    | .ok resp =>
      if resp.statusCode ≠ 200 then
        (st, .error ("token error " ++ toString resp.statusCode ++ ": " ++ resp.body), 1)
      else
        match resp.parsed with
        | none => (st, .error "parse token response", 1)
        | some tb =>
          (⟨tb.accessToken, now3 + (goAtoi tb.expiresIn - 60)⟩,
            .ok tb.accessToken, 1)

/-- A failing token exchange in the sense of `GetToken`: HTTP error,
non-200 status, or a body that fails to decode. -/
def exchangeFailed (exch : Except String ExchangeResponse) : Prop :=
  match exch with
  | .error _ => True
  | .ok r => r.statusCode ≠ 200 ∨ r.parsed = none

/-! ### Sample environments and rows used by concrete witnesses -/

/-- Environment whose unmarshal always succeeds and whose senders all
succeed with a fixed external id. -/
def envOk : SSEnv :=
  ⟨fun s => some s, fun _ => .ok "fhir", fun _ => .ok "fhir",
    fun _ => .ok "fhir", fun _ => .ok "fhir", fun _ => .ok "fhir",
    fun _ => .ok "fhir"⟩

/-- Environment whose unmarshal always fails (corrupt stored payload). -/
def envBadParse : SSEnv := { envOk with unmarshal := fun _ => none }

/-- A failed job that has exhausted its retries. -/
def jobMaxed : Job := ⟨1, "Condition", "K1", "p", "failed", "", "boom", 3, 0⟩

def dbMaxed : DB := ⟨[jobMaxed], 1, 5⟩

/-- A job already in the terminal success state. -/
def jobDone : Job := ⟨2, "Condition", "K2", "p", "success", "F1", "", 0, 0⟩

def dbDone : DB := ⟨[jobDone], 2, 5⟩

/-- A failed job at the retry cap whose stored payload is corrupt. -/
def jobCorrupt : Job := ⟨3, "Condition", "K3", "oops", "failed", "", "x", 3, 0⟩

def dbCorrupt : DB := ⟨[jobCorrupt], 3, 5⟩

/-- A failed job under the cap whose stored payload is corrupt. -/
def jobBadPayload : Job := ⟨4, "Condition", "K4", "oops", "failed", "", "x", 1, 0⟩

def dbBadPayload : DB := ⟨[jobBadPayload], 4, 5⟩

/-! ### Helper lemmas -/

theorem map_id_of_ne (l : List Job) (i : Nat) (f : Job → Job)
    (h : ∀ j ∈ l, j.id ≠ i) :
    l.map (fun j => if j.id = i then f j else j) = l := by
  induction l with
  | nil => rfl
  | cons a t ih =>
    have ha : a.id ≠ i := h a (List.mem_cons_self a t)
    simp only [List.map_cons, if_neg ha, List.cons.injEq, true_and]
    exact ih (fun j hj => h j (List.mem_cons_of_mem a hj))

theorem any_key_append (l : List Job) (j : Job) (rt key : String)
    (h1 : j.resourceType = rt) (h2 : j.idempotencyKey = key) :
    (l ++ [j]).any (fun x => x.resourceType == rt && x.idempotencyKey == key) = true := by
  simp [List.any_append, h1, h2]

theorem hasKey_failJob (db : DB) (i : Nat) (e rt key : String) :
    hasKey (failJob db i e) rt key = hasKey db rt key := by
  unfold hasKey failJob
  simp only [List.any_map]
  congr 1
  funext j
  by_cases h : j.id = i <;> simp [h, Function.comp]

theorem hasKey_completeJob (db : DB) (i : Nat) (fid rt key : String) :
    hasKey (completeJob db i fid) rt key = hasKey db rt key := by
  unfold hasKey completeJob
  simp only [List.any_map]
  congr 1
  funext j
  by_cases h : j.id = i <;> simp [h, Function.comp]

/-- A fresh submission invokes the sender exactly once, and afterwards
the unique key is present in the store (whatever the send outcome). -/
theorem sendViaJob_fresh (db : DB) (rt key pj : String)
    (sendFn : Except String String) (hfresh : hasKey db rt key = false) :
    (sendViaJob db rt key (some pj) false sendFn).2.2 = 1 ∧
    hasKey (sendViaJob db rt key (some pj) false sendFn).1 rt key = true := by
  have hc : createJob db rt key (some pj) false =
      (⟨db.jobs ++ [⟨db.nextId + 1, rt, key, pj, "pending", "", "", 0, db.clock⟩],
        db.nextId + 1, db.clock⟩, db.nextId + 1) := by
    simp [createJob, hfresh]
  cases sendFn with
  | error e =>
    refine ⟨by simp [sendViaJob, hc], ?_⟩
    simp only [sendViaJob, hc]
    rw [if_neg (Nat.succ_ne_zero db.nextId)]
    rw [hasKey_failJob]
    exact any_key_append db.jobs _ rt key rfl rfl
  | ok fid =>
    refine ⟨by simp [sendViaJob, hc], ?_⟩
    simp only [sendViaJob, hc]
    rw [if_neg (Nat.succ_ne_zero db.nextId)]
    rw [hasKey_completeJob]
    exact any_key_append db.jobs _ rt key rfl rfl

/-- A submission whose unique key is already present performs no send,
changes nothing, and returns the skip sentinel. -/
theorem sendViaJob_dup (db : DB) (rt key : String)
    (payloadJSON : Option String) (execErr : Bool)
    (sendFn : Except String String) (hdup : hasKey db rt key = true) :
    sendViaJob db rt key payloadJSON execErr sendFn = (db, ("", none), 0) := by
  cases payloadJSON with
  | none => rfl
  | some pj =>
    cases execErr with
    | true => simp [sendViaJob, createJob]
    | false => simp [sendViaJob, createJob, hdup]

/-! ### Claim theorems -/

/-- C10: when `createJob` fails for a reason other than a genuine
duplicate — the payload fails to JSON-marshal or the insert errors — it
returns the same sentinel 0, so `sendViaJob` returns `("", nil)` with no
external send and no error, exactly as for a duplicate. -/
theorem C10_registration_failure_skip (db : DB) (rt key : String)
    (payloadJSON : Option String) (execErr : Bool)
    (sendFn : Except String String)
    (h : payloadJSON = none ∨ execErr = true) :
    sendViaJob db rt key payloadJSON execErr sendFn = (db, ("", none), 0) := by
  rcases h with h | h
  · subst h; rfl
  · subst h
    cases payloadJSON with
    | none => rfl
    | some pj => simp [sendViaJob, createJob]

theorem C10_registration_failure_skip_witness :
    sendViaJob ⟨[], 0, 0⟩ "Encounter" "K" none false (.ok "f") =
      (⟨[], 0, 0⟩, ("", none), 0) :=
  C10_registration_failure_skip ⟨[], 0, 0⟩ "Encounter" "K" none false
    (.ok "f") (Or.inl rfl)

/-- C1: starting from a store without the key, two sequential
`sendViaJob` calls with the same resourceType and idempotencyKey invoke
the sender exactly once in total — once in the first call, zero times in
the second — and the second call returns `("", nil)` leaving the store
unchanged. -/
theorem C1_at_most_once (db : DB) (rt key pj : String)
    (sendFn1 sendFn2 : Except String String)
    (hfresh : hasKey db rt key = false) :
    (sendViaJob db rt key (some pj) false sendFn1).2.2 = 1 ∧
    sendViaJob (sendViaJob db rt key (some pj) false sendFn1).1 rt key
        (some pj) false sendFn2 =
      ((sendViaJob db rt key (some pj) false sendFn1).1, ("", none), 0) :=
  ⟨(sendViaJob_fresh db rt key pj sendFn1 hfresh).1,
    sendViaJob_dup _ rt key (some pj) false sendFn2
      (sendViaJob_fresh db rt key pj sendFn1 hfresh).2⟩

theorem C1_at_most_once_witness :
    (sendViaJob ⟨[], 0, 0⟩ "Encounter" "K" (some "p") false (.ok "F")).2.2 = 1 ∧
    sendViaJob (sendViaJob ⟨[], 0, 0⟩ "Encounter" "K" (some "p") false (.ok "F")).1
        "Encounter" "K" (some "p") false (.ok "F2") =
      ((sendViaJob ⟨[], 0, 0⟩ "Encounter" "K" (some "p") false (.ok "F")).1,
        ("", none), 0) :=
  C1_at_most_once ⟨[], 0, 0⟩ "Encounter" "K" "p" (.ok "F") (.ok "F2") (by decide)

/-- C5: a fresh (non-duplicate) submission records its outcome: on a
sender error the job row is stored failed with the error message and
retry_count 1 and the error is returned; on sender success the row is
stored success with the external id and a cleared error_message and
`(externalId, nil)` is returned. -/
theorem C5_outcome_recording (db : DB) (rt key pj e fid : String)
    (hwf : ∀ j ∈ db.jobs, j.id ≤ db.nextId)
    (hfresh : hasKey db rt key = false) :
    sendViaJob db rt key (some pj) false (.error e) =
      (⟨db.jobs ++ [⟨db.nextId + 1, rt, key, pj, "failed", "", e, 1, db.clock⟩],
        db.nextId + 1, db.clock⟩, ("", some e), 1) ∧
    sendViaJob db rt key (some pj) false (.ok fid) =
      (⟨db.jobs ++ [⟨db.nextId + 1, rt, key, pj, "success", fid, "", 0, db.clock⟩],
        db.nextId + 1, db.clock⟩, (fid, none), 1) := by
  have hc : createJob db rt key (some pj) false =
      (⟨db.jobs ++ [⟨db.nextId + 1, rt, key, pj, "pending", "", "", 0, db.clock⟩],
        db.nextId + 1, db.clock⟩, db.nextId + 1) := by
    simp [createJob, hfresh]
  have hne : ∀ j ∈ db.jobs, j.id ≠ db.nextId + 1 := fun j hj =>
    Nat.ne_of_lt (Nat.lt_succ_of_le (hwf j hj))
  constructor
  · simp only [sendViaJob, hc]
    simp [failJob, List.map_append, map_id_of_ne db.jobs (db.nextId + 1) _ hne]
  · simp only [sendViaJob, hc]
    simp [completeJob, List.map_append, map_id_of_ne db.jobs (db.nextId + 1) _ hne]

theorem C5_outcome_recording_witness :
    sendViaJob ⟨[], 0, 0⟩ "Encounter" "K" (some "p") false (.error "boom") =
      (⟨[⟨1, "Encounter", "K", "p", "failed", "", "boom", 1, 0⟩], 1, 0⟩,
        ("", some "boom"), 1) ∧
    sendViaJob ⟨[], 0, 0⟩ "Encounter" "K" (some "p") false (.ok "F") =
      (⟨[⟨1, "Encounter", "K", "p", "success", "F", "", 0, 0⟩], 1, 0⟩,
        ("F", none), 1) :=
  C5_outcome_recording ⟨[], 0, 0⟩ "Encounter" "K" "p" "boom" "F"
    (by simp) (by decide)

theorem C2_counterexample :
    retryOneJob envOk dbMaxed 1 =
      (dbMaxed, .skipped 1 "max retries (3) reached", 0) ∧
    RetryOutcome.skipped 1 "max retries (3) reached" ≠
      RetryOutcome.skipped 1 "max retries reached" := by
  exact ⟨rfl, by decide⟩

/-- C2 (amended): for every job whose stored retry_count is at least 3
and whose status is not success, `retryOneJob` returns a skip outcome
with reason "max retries (3) reached", makes no external send call and
does not update the job row. -/
theorem C2_retry_cap (env : SSEnv) (db : DB) (jobID : Nat) (j : Job)
    (hfind : findJob db jobID = some j) (hs : j.status ≠ "success")
    (hr : 3 ≤ j.retryCount) :
    retryOneJob env db jobID =
      (db, .skipped jobID "max retries (3) reached", 0) := by
  unfold retryOneJob
  rw [hfind]
  simp [hs, hr]

theorem C2_retry_cap_witness :
    retryOneJob envOk dbMaxed 1 =
      (dbMaxed, .skipped 1 "max retries (3) reached", 0) :=
  C2_retry_cap envOk dbMaxed 1 jobMaxed (by decide) (by decide) (by decide)

/-- C3: for every job whose status is success, `retryOneJob` returns the
skip outcome "already success", performs no external call and leaves the
database — in particular the stored fhir_id — unchanged. -/
theorem C3_success_terminal (env : SSEnv) (db : DB) (jobID : Nat) (j : Job)
    (hfind : findJob db jobID = some j) (hs : j.status = "success") :
    retryOneJob env db jobID = (db, .skipped jobID "already success", 0) := by
  unfold retryOneJob
  rw [hfind]
  simp [hs]

theorem C3_success_terminal_witness :
    retryOneJob envOk dbDone 2 = (dbDone, .skipped 2 "already success", 0) :=
  C3_success_terminal envOk dbDone 2 jobDone (by decide) (by decide)

theorem C8_counterexample :
    envBadParse.unmarshal jobCorrupt.payload = none ∧
    retryOneJob envBadParse dbCorrupt 3 =
      (dbCorrupt, .skipped 3 "max retries (3) reached", 0) ∧
    RetryOutcome.skipped 3 "max retries (3) reached" ≠
      RetryOutcome.error 3 "invalid payload" := by
  exact ⟨rfl, rfl, by decide⟩

/-- C8 (amended): for every job whose status is not success, whose
retry_count is below the cap of 3, and whose stored payload fails to
deserialize, `retryOneJob` returns the error outcome "invalid payload"
without any external call and without modifying the job row. -/
theorem C8_invalid_payload (env : SSEnv) (db : DB) (jobID : Nat) (j : Job)
    (hfind : findJob db jobID = some j) (hs : j.status ≠ "success")
    (hr : j.retryCount < 3) (hp : env.unmarshal j.payload = none) :
    retryOneJob env db jobID = (db, .error jobID "invalid payload", 0) := by
  unfold retryOneJob
  rw [hfind]
  simp [hs, Nat.not_le.mpr hr, hp]

theorem C8_invalid_payload_witness :
    retryOneJob envBadParse dbBadPayload 4 =
      (dbBadPayload, .error 4 "invalid payload", 0) :=
  C8_invalid_payload envBadParse dbBadPayload 4 jobBadPayload (by decide)
    (by decide) (by decide) rfl

/-- C6: with an empty cache, a `getToken` call whose exchange responds
status 200 with access_token "abc" and expires_in "3600" performs
exactly one exchange call, returns "abc", and caches it with
expiresAt = now + (3600 - 60) = now + 3540 seconds. -/
theorem C6_token_expiry (e0 now1 now2 now3 : Int) (raw : String) :
    getToken ⟨"", e0⟩ now1 now2 now3 (.ok ⟨200, raw, some ⟨"abc", "3600"⟩⟩) =
      (⟨"abc", now3 + 3540⟩, .ok "abc", 1) := by
  have ha : goAtoi "3600" = 3600 := by decide
  simp [getToken, ha]

/-- C7: when the cache is not usable at either check and the exchange
fails (HTTP error, non-200 status, or unparseable body), `getToken`
returns an error, leaves the cached token and expiresAt exactly as they
were, and performs exactly one exchange call (no internal retry). -/
theorem C7_token_failure_atomic (st : TMState) (now1 now2 now3 : Int)
    (exch : Except String ExchangeResponse)
    (h1 : ¬(st.token ≠ "" ∧ now1 < st.expiresAt))
    (h2 : ¬(st.token ≠ "" ∧ now2 < st.expiresAt))
    (hf : exchangeFailed exch) :
    (getToken st now1 now2 now3 exch).1 = st ∧
    (∃ m, (getToken st now1 now2 now3 exch).2.1 = .error m) ∧
    (getToken st now1 now2 now3 exch).2.2 = 1 := by
  cases exch with
  | error e => simp [getToken, h1, h2]
  | ok resp =>
    rcases hf with hs | hp
    · simp [getToken, h1, h2, hs]
    · by_cases hsc : resp.statusCode = 200
      · simp [getToken, h1, h2, hsc, hp]
      · simp [getToken, h1, h2, hsc]

theorem foldl_retry_length (env : SSEnv) (ids : List Nat) (db : DB)
    (acc : List RetryOutcome) :
    (ids.foldl
        (fun a id =>
          ((retryOneJob env a.1 id).1, a.2 ++ [(retryOneJob env a.1 id).2.1]))
        (db, acc)).2.length = acc.length + ids.length := by
  induction ids generalizing db acc with
  | nil => simp
  | cons i t ih =>
    rw [List.foldl_cons, ih]
    simp [Nat.add_assoc, Nat.add_comm 1 t.length]

/-- C9: the retry-all branch selects exactly the jobs with
status = failed and retry_count < 3 (exactly: provided no more than the
LIMIT of 100 are eligible), ordered by ascending created_at, at most 100
of them, and produces one outcome per selected job by applying
`retryOneJob` to each in that order. -/
theorem C9_retry_failed_selection (env : SSEnv) (db : DB)
    (hle : (db.jobs.filter
        (fun j => j.status == "failed" && decide (j.retryCount < 3))).length ≤ 100) :
    (∀ i ∈ retryCandidates db,
      ∃ j ∈ db.jobs, j.id = i ∧ j.status = "failed" ∧ j.retryCount < 3) ∧
    (∀ j ∈ db.jobs, j.status = "failed" → j.retryCount < 3 →
      j.id ∈ retryCandidates db) ∧
    (retryCandidates db).length ≤ 100 ∧
    (retryCandidateRows db).Pairwise (fun a b => a.createdAt ≤ b.createdAt) ∧
    (handleRetryFailed env db).2.length = (retryCandidates db).length := by
  refine ⟨?_, ?_, ?_, ?_, ?_⟩
  · intro i hi
    rcases List.mem_map.mp hi with ⟨j, hj, hji⟩
    have hj' : j ∈ (db.jobs.filter
        (fun j => j.status == "failed" && decide (j.retryCount < 3))).mergeSort
          (fun a b => decide (a.createdAt ≤ b.createdAt)) :=
      List.take_subset 100 _ hj
    have hj'' := List.mem_mergeSort.mp hj'
    rcases List.mem_filter.mp hj'' with ⟨hmem, hcond⟩
    refine ⟨j, hmem, hji, ?_, ?_⟩
    · exact eq_of_beq (Bool.and_elim_left hcond)
    · exact of_decide_eq_true (Bool.and_elim_right hcond)
  · intro j hmem hst hrc
    have hcond : (j.status == "failed" && decide (j.retryCount < 3)) = true := by
      simp [hst, hrc]
    have hjF : j ∈ db.jobs.filter
        (fun j => j.status == "failed" && decide (j.retryCount < 3)) :=
      List.mem_filter.mpr ⟨hmem, hcond⟩
    have htake : retryCandidateRows db = (db.jobs.filter
        (fun j => j.status == "failed" && decide (j.retryCount < 3))).mergeSort
          (fun a b => decide (a.createdAt ≤ b.createdAt)) := by
      unfold retryCandidateRows
      exact List.take_of_length_le (by rw [List.length_mergeSort]; exact hle)
    refine List.mem_map.mpr ⟨j, ?_, rfl⟩
    rw [htake]
    exact List.mem_mergeSort.mpr hjF
  · unfold retryCandidates retryCandidateRows
    rw [List.length_map, List.length_take]
    exact Nat.min_le_left _ _
  · have hsorted := @List.sorted_mergeSort Job
      (fun (a b : Job) => decide (a.createdAt ≤ b.createdAt))
      (fun a b c hab hbc =>
        decide_eq_true (Nat.le_trans (of_decide_eq_true hab) (of_decide_eq_true hbc)))
      (fun a b => by
        rcases Nat.le_total a.createdAt b.createdAt with h | h <;>
          simp [decide_eq_true h])
      (db.jobs.filter (fun j => j.status == "failed" && decide (j.retryCount < 3)))
    have hp := List.Pairwise.sublist (List.take_sublist 100 _) hsorted
    exact hp.imp (fun h => of_decide_eq_true h)
  · unfold handleRetryFailed
    rw [foldl_retry_length]
    simp

theorem C9_retry_failed_selection_witness :
    (∀ i ∈ retryCandidates ⟨[⟨5, "Condition", "K5", "p", "failed", "", "x", 0, 0⟩], 5, 9⟩,
      ∃ j ∈ ([⟨5, "Condition", "K5", "p", "failed", "", "x", 0, 0⟩] : List Job),
        j.id = i ∧ j.status = "failed" ∧ j.retryCount < 3) ∧
    (∀ j ∈ ([⟨5, "Condition", "K5", "p", "failed", "", "x", 0, 0⟩] : List Job),
      j.status = "failed" → j.retryCount < 3 →
      j.id ∈ retryCandidates ⟨[⟨5, "Condition", "K5", "p", "failed", "", "x", 0, 0⟩], 5, 9⟩) ∧
    (retryCandidates ⟨[⟨5, "Condition", "K5", "p", "failed", "", "x", 0, 0⟩], 5, 9⟩).length ≤ 100 ∧
    (retryCandidateRows ⟨[⟨5, "Condition", "K5", "p", "failed", "", "x", 0, 0⟩], 5, 9⟩).Pairwise
      (fun a b => a.createdAt ≤ b.createdAt) ∧
    (handleRetryFailed envOk ⟨[⟨5, "Condition", "K5", "p", "failed", "", "x", 0, 0⟩], 5, 9⟩).2.length =
      (retryCandidates ⟨[⟨5, "Condition", "K5", "p", "failed", "", "x", 0, 0⟩], 5, 9⟩).length :=
  C9_retry_failed_selection envOk
    ⟨[⟨5, "Condition", "K5", "p", "failed", "", "x", 0, 0⟩], 5, 9⟩ (by decide)

theorem C7_token_failure_atomic_witness :
    (getToken ⟨"", 0⟩ 0 0 0 (.error "net")).1 = ⟨"", 0⟩ ∧
    (∃ m, (getToken ⟨"", 0⟩ 0 0 0 (.error "net")).2.1 = .error m) ∧
    (getToken ⟨"", 0⟩ 0 0 0 (.error "net")).2.2 = 1 :=
  C7_token_failure_atomic ⟨"", 0⟩ 0 0 0 (.error "net") (by simp) (by simp)
    trivial

end SatuSehat
